import Mathlib

/-!
Shallow embedding of libdevm/core.py: the Hook/Builder/Recipe object model
of the devm recipe framework, together with proofs of its step-execution,
validation and result-aggregation contract.

External collaborators (the HTTP client, the archive extractor, the
filesystem removal primitive, the OS process runner and the current working
directory) are modelled by an oracle structure named World: each field gives
the outcome the collaborator would produce for given arguments, an Except
value whose error is the description text of the raised error.
-/

namespace Devm

/-- Mirror of the StepExecutionResult namedtuple: return code, captured
stdout bytes and captured stderr bytes (byte strings modelled as String). -/
structure StepExecutionResult where
  return_code : Int
  stdout : String
  stderr : String
  deriving Repr, DecidableEq

/-- Mirror of os.EX_OK. -/
def EX_OK : Int := 0

/-- Mirror of os.EX_SOFTWARE, the distinguished internal-failure code. -/
def EX_SOFTWARE : Int := 70

/-- Outcome of a successfully launched external process: its exit code and
captured output streams, as produced by subprocess.run. -/
structure ProcOutcome where
  returncode : Int
  stdout : String
  stderr : String
  deriving Repr, DecidableEq

/-- Oracle for the external collaborators invoked by steps. An error value
carries the description text of the raised error; for runProcess an error
means the process could not be launched at all (as opposed to a launched
process exiting non-zero, which is an ok ProcOutcome). -/
structure World where
  downloadResult : String → String → Except String Unit
  extractResult : String → String → Bool → Bool → Bool → Except String Unit
  rmResult : String → Except String Unit
  runProcess : List String → String → Except String ProcOutcome
  getcwd : String

/-- The four step kinds, each owning its captured parameters, mirroring the
closures built by Builder.download, Builder.extract, Builder.rm and
Builder.cmd. The cmd variant carries its captured cwd variable, which the
closure overwrites on first invocation when it was empty. -/
inductive Step where
  | download (url path : String)
  | extract (src dest : String) (overwrite all_ keep_intermediate : Bool)
  | rm (path : String)
  | cmd (args : List String) (cwd : String)
  deriving Repr, DecidableEq

/-- Execution of one step against the oracle. Returns the StepExecutionResult
together with the step in its post-invocation state (only cmd mutates its
captured cwd; the other kinds return themselves unchanged). An error return
models an uncaught Python exception escaping the step: only the cmd variant
produces one, when the process launch itself fails; download, extract and rm
catch every underlying error and convert it into a result with status
EX_SOFTWARE, empty stdout and the error description as stderr. -/
def runStep : Step → World → Except String (StepExecutionResult × Step)
  | .download url path, w =>
    match w.downloadResult url path with
    | .ok _ =>
      .ok (⟨EX_OK, "downloaded to " ++ path, ""⟩, .download url path)
    | .error err => .ok (⟨EX_SOFTWARE, "", err⟩, .download url path)
  | .extract src dest o a k, w =>
    match w.extractResult src dest o a k with
    | .ok _ =>
      .ok (⟨EX_OK, "extracted " ++ src ++ " to " ++ dest, ""⟩, .extract src dest o a k)
    | .error err => .ok (⟨EX_SOFTWARE, "", err⟩, .extract src dest o a k)
  | .rm path, w =>
    match w.rmResult path with
    | .ok _ => .ok (⟨EX_OK, "removed " ++ path, ""⟩, .rm path)
    | .error err => .ok (⟨EX_SOFTWARE, "", err⟩, .rm path)
  | .cmd args cwd, w =>
    let c := if cwd = "" then w.getcwd else cwd
    match w.runProcess args c with
    | .ok p => .ok (⟨p.returncode, p.stdout, p.stderr⟩, .cmd args c)
    | .error err => .error err

/-- Mirror of the Hook dataclass: an ordered list of steps plus an optional
description. -/
structure Hook where
  steps : List Step
  description : Option String
  deriving Repr, DecidableEq

/-- Runs a list of steps in order against the oracle, collecting every result
in order and threading each step into its post-invocation state. An uncaught
error from a step aborts the whole run and propagates, exactly as a Python
exception escapes the loop in Hook.__call__. -/
def callSteps : List Step → World → Except String (List StepExecutionResult × List Step)
  | [], _ => .ok ([], [])
  | s :: rest, w =>
    match runStep s w with
    | .error e => .error e
    | .ok (r, s1) =>
      match callSteps rest w with
      | .error e => .error e
      | .ok (rs, ss) => .ok (r :: rs, s1 :: ss)

/-- Mirror of Hook.__call__: execute every step in sequence order and return
the ordered list of their results (plus the hook in its post-invocation
state, to account for the cmd step overwriting its captured cwd). -/
def Hook.call (h : Hook) (w : World) : Except String (List StepExecutionResult × Hook) :=
  (callSteps h.steps w).map fun p => (p.1, ⟨p.2, h.description⟩)

/-- Mirror of the BuilderException hierarchy: HooksMissing and
CurrentHooksNotSet, each carrying its message. -/
inductive BuilderException where
  | hooksMissing (msg : String)
  | currentHooksNotSet (msg : String)
  deriving Repr, DecidableEq

/-- The four hook slots of a Builder. -/
inductive HookKind where
  | install
  | uninstall
  | update
  | is_updated
  deriving Repr, DecidableEq

/-- Mirror of the Builder dataclass. The Python field _current_hook is a
reference that always aliases one of the four hook slots (it is only ever
assigned in the four selection methods), so it is modelled as the kind of
the slot it points at; current_hook = none models _current_hook = None. -/
structure Builder where
  name : String
  description : String := ""
  current_hook : Option HookKind := none
  install_hook : Option Hook := none
  uninstall_hook : Option Hook := none
  update_hook : Option Hook := none
  is_updated_hook : Option Hook := none
  deriving Repr, DecidableEq

/-- Reads the hook slot of the given kind. -/
def Builder.getHook (b : Builder) : HookKind → Option Hook
  | .install => b.install_hook
  | .uninstall => b.uninstall_hook
  | .update => b.update_hook
  | .is_updated => b.is_updated_hook

/-- Writes the hook slot of the given kind. -/
def Builder.setHook (b : Builder) : HookKind → Hook → Builder
  | .install, h => { b with install_hook := some h }
  | .uninstall, h => { b with uninstall_hook := some h }
  | .update, h => { b with update_hook := some h }
  | .is_updated, h => { b with is_updated_hook := some h }

/-- Mirror of Builder._check_current_hook followed by the append performed by
every step constructor: with no current hook selected it raises
CurrentHooksNotSet naming the builder; otherwise it appends the step to the
end of the currently selected hook and returns the updated builder. The
slot a selected kind points at is always populated (the selection methods
establish this), so the inner none branch is unreachable through the API and
conservatively reports the same error. -/
def Builder.appendStep (b : Builder) (s : Step) : Except BuilderException Builder :=
  match b.current_hook with
  | none => .error (.currentHooksNotSet ("No hook set for " ++ b.name))
  | some k =>
    match b.getHook k with
    | none => .error (.currentHooksNotSet ("No hook set for " ++ b.name))
    | some h => .ok (b.setHook k ⟨h.steps ++ [s], h.description⟩)

/-- Mirror of Builder.download: checks the current hook, then appends a
download step capturing url and path. -/
def Builder.download (b : Builder) (url path : String) : Except BuilderException Builder :=
  b.appendStep (.download url path)

/-- Mirror of Builder.extract. -/
def Builder.extract (b : Builder) (src dest : String)
    (overwrite all_ keep_intermediate : Bool) : Except BuilderException Builder :=
  b.appendStep (.extract src dest overwrite all_ keep_intermediate)

/-- Mirror of Builder.rm. -/
def Builder.rm (b : Builder) (path : String) : Except BuilderException Builder :=
  b.appendStep (.rm path)

/-- Mirror of Builder.cmd: the captured cwd starts out as the argument
(default empty in Python). -/
def Builder.cmd (b : Builder) (args : List String) (cwd : String) :
    Except BuilderException Builder :=
  b.appendStep (.cmd args cwd)

/-- Mirror of Builder.install: lazily creates the install hook with the given
description on first selection, reuses it afterwards, and points the current
hook at it. A Python Hook dataclass instance is always truthy, so the test
in the source is exactly an is-None test. -/
def Builder.install (b : Builder) (description : String) : Builder :=
  let b1 := match b.install_hook with
    | none => { b with install_hook := some ⟨[], some description⟩ }
    | some _ => b
  { b1 with current_hook := some HookKind.install }

/-- Mirror of Builder.uninstall. -/
def Builder.uninstall (b : Builder) (description : String) : Builder :=
  let b1 := match b.uninstall_hook with
    | none => { b with uninstall_hook := some ⟨[], some description⟩ }
    | some _ => b
  { b1 with current_hook := some HookKind.uninstall }

/-- Mirror of Builder.update. -/
def Builder.update (b : Builder) (description : String) : Builder :=
  let b1 := match b.update_hook with
    | none => { b with update_hook := some ⟨[], some description⟩ }
    | some _ => b
  { b1 with current_hook := some HookKind.update }

/-- Mirror of Builder.is_updated. -/
def Builder.is_updated (b : Builder) (description : String) : Builder :=
  let b1 := match b.is_updated_hook with
    | none => { b with is_updated_hook := some ⟨[], some description⟩ }
    | some _ => b
  { b1 with current_hook := some HookKind.is_updated }

/-- Dispatch of the four selection methods on a hook kind; each branch is the
corresponding source method unchanged. -/
def Builder.select (b : Builder) : HookKind → String → Builder
  | .install, d => b.install d
  | .uninstall, d => b.uninstall d
  | .update, d => b.update d
  | .is_updated, d => b.is_updated d

/-- Truthiness of os.environ.get of the DEVM_DEBUG variable: none models an
absent variable, and an empty string is falsy in Python. -/
def envTruthy : Option String → Bool
  | none => false
  | some s => s ≠ ""

/-- Message of the HooksMissing error raised by Builder.to_recipe. The Python
message interpolates the repr of the two hook fields; the repr text is
abstracted away here, only the error kind being contractual. -/
def hooksMissingMessage : String := "One of the required hooks are none"

/-- Mirror of the Recipe dataclass. Its description field has default value
empty string. -/
structure Recipe where
  name : String
  description : String := ""
  install_hook : Option Hook := none
  uninstall_hook : Option Hook := none
  update_hook : Option Hook := none
  is_updated_hook : Option Hook := none
  deriving Repr, DecidableEq

/-- Mirror of Builder.to_recipe. The devm_debug argument is the value of the
DEVM_DEBUG environment variable at finalization time. The check in the
source tests truthiness of both hook fields with the all builtin; a Hook
instance is always truthy, so the check is exactly an is-None test on each.
The Recipe is constructed from name and the four hook fields only: the
source passes no description, so Recipe.description takes its default. -/
def Builder.to_recipe (b : Builder) (devm_debug : Option String) :
    Except BuilderException Recipe :=
  if !(b.install_hook.isSome && b.uninstall_hook.isSome) && !(envTruthy devm_debug) then
    .error (.hooksMissing hooksMissingMessage)
  else
    .ok { name := b.name
          install_hook := b.install_hook
          uninstall_hook := b.uninstall_hook
          update_hook := b.update_hook
          is_updated_hook := b.is_updated_hook }

/-- Mirror of Recipe.is_updated: invokes the is-updated hook and returns true
exactly when every result has return code 0. Invoking an absent hook in
Python raises a TypeError (None is not callable), modelled as an error. -/
def Recipe.is_updated (r : Recipe) (w : World) : Except String Bool :=
  match r.is_updated_hook with
  | none => .error "TypeError: NoneType object is not callable"
  | some h => (h.call w).map fun p => p.1.all fun x => x.return_code == 0

/-- Mirror of the recipe entry factory. -/
def recipe (name : String) (description : String) : Builder :=
  { name := name, description := description }

end Devm

namespace Devm

/-- Oracle in which downloads succeed, extraction fails with description boom,
removal fails with description gone, and process launch fails. -/
def wA : World where
  downloadResult := fun _ _ => .ok ()
  extractResult := fun _ _ _ _ _ => .error "boom"
  rmResult := fun _ => .error "gone"
  runProcess := fun _ _ => .error "launch failed"
  getcwd := "/home"

/-- Oracle in which every collaborator succeeds and every launched process
exits with code 7. -/
def wB : World where
  downloadResult := fun _ _ => .ok ()
  extractResult := fun _ _ _ _ _ => .ok ()
  rmResult := fun _ => .ok ()
  runProcess := fun _ _ => .ok ⟨7, "out", "err"⟩
  getcwd := "/home"

/-- Oracle whose current working directory is /a and whose processes echo the
directory they were run in as stdout. -/
def wC9a : World where
  downloadResult := fun _ _ => .ok ()
  extractResult := fun _ _ _ _ _ => .ok ()
  rmResult := fun _ => .ok ()
  runProcess := fun _ c => .ok ⟨0, c, ""⟩
  getcwd := "/a"

/-- Oracle whose current working directory is /b and whose processes echo the
directory they were run in as stdout. -/
def wC9b : World where
  downloadResult := fun _ _ => .ok ()
  extractResult := fun _ _ _ _ _ => .ok ()
  rmResult := fun _ => .ok ()
  runProcess := fun _ c => .ok ⟨0, c, ""⟩
  getcwd := "/b"

/-- Fresh builder with no hooks selected or created. -/
def bC4 : Builder := recipe "pkg" "desc"

/-- Builder with a non-empty description and both required hooks present. -/
def bC8 : Builder :=
  { name := "pkg", description := "desc",
    install_hook := some ⟨[], some ""⟩, uninstall_hook := some ⟨[], some ""⟩ }

/-- The recipe that finalizing bC8 produces: its description is the Recipe
default empty string, not the description of the builder. -/
def rC8 : Recipe :=
  { name := "pkg", install_hook := some ⟨[], some ""⟩, uninstall_hook := some ⟨[], some ""⟩ }

/-- Recipe whose is-updated hook holds one removal step. -/
def rC6 : Recipe := { name := "n", is_updated_hook := some ⟨[.rm "a"], none⟩ }

/-- Recipe whose is-updated hook is present but holds zero steps. -/
def rC10 : Recipe := { name := "n", is_updated_hook := some ⟨[], none⟩ }

/-- Builder after a first selection of the install hook. -/
def bW : Builder := (recipe "x" "").install "d1"

/-- Builder state after one download step was appended in the first install
selection window. -/
def bW3 : Builder :=
  { name := "x", description := "", current_hook := some HookKind.install,
    install_hook := some ⟨[Step.download "u1" "p1"], some "d1"⟩ }

/-- Builder state after a second download step was appended in the second
install selection window: one continuous two-step sequence. -/
def bW4 : Builder :=
  { name := "x", description := "", current_hook := some HookKind.install,
    install_hook := some ⟨[Step.download "u1" "p1", Step.download "u2" "p2"], some "d1"⟩ }

/-- Running a list of steps that all return ok yields one result per step, in
order, the result and post-state at position i being exactly what running the
step at position i alone produces. -/
lemma callSteps_length_get (ss : List Step) (w : World) (rs : List StepExecutionResult)
    (ss' : List Step) (hc : callSteps ss w = .ok (rs, ss')) :
    rs.length = ss.length ∧ ss'.length = ss.length ∧
    ∀ (i : Nat) (hi : i < ss.length) (hr : i < rs.length) (hs : i < ss'.length),
      runStep (ss.get ⟨i, hi⟩) w = .ok (rs.get ⟨i, hr⟩, ss'.get ⟨i, hs⟩) := by
  induction ss generalizing rs ss' with
  | nil =>
    simp only [callSteps, Except.ok.injEq, Prod.mk.injEq] at hc
    obtain ⟨h1, h2⟩ := hc
    subst h1; subst h2
    exact ⟨rfl, rfl, fun i hi => absurd hi (by simp)⟩
  | cons s rest ih =>
    simp only [callSteps] at hc
    cases h1 : runStep s w with
    | error e => rw [h1] at hc; exact absurd hc (by simp)
    | ok v =>
      obtain ⟨r, s1⟩ := v
      rw [h1] at hc
      cases h2 : callSteps rest w with
      | error e => rw [h2] at hc; exact absurd hc (by simp)
      | ok v2 =>
        obtain ⟨rs0, ss0⟩ := v2
        rw [h2] at hc
        simp only [Except.ok.injEq, Prod.mk.injEq] at hc
        obtain ⟨hrs, hss⟩ := hc
        subst hrs; subst hss
        obtain ⟨ihl, ihl2, ihp⟩ := ih rs0 ss0 h2
        refine ⟨by simp [ihl], by simp [ihl2], ?_⟩
        intro i hi hr hs
        match i with
        | 0 => simpa using h1
        | Nat.succ n =>
          simpa using ihp n (by simpa using hi) (by simpa using hr) (by simpa using hs)

/-- An uncaught error raised by a step propagates out of the whole run when
every step before it returns ok. -/
lemma callSteps_error_of_step_error (pre : List Step) (s0 : Step) (rest : List Step)
    (w : World) (e : String) (hpre : ∀ s ∈ pre, ∃ x, runStep s w = .ok x)
    (h0 : runStep s0 w = .error e) :
    callSteps (pre ++ s0 :: rest) w = .error e := by
  induction pre with
  | nil => simp [callSteps, h0]
  | cons s pre ih =>
    obtain ⟨x, hx⟩ := hpre s (by simp)
    obtain ⟨r, s1⟩ := x
    have hrest := ih (fun t ht => hpre t (by simp [ht]))
    simp [callSteps, hx, hrest]

/-- Writing a hook slot makes that slot hold the written hook. -/
lemma setHook_getHook (b : Builder) (k : HookKind) (h : Hook) :
    (b.setHook k h).getHook k = some h := by
  cases k <;> rfl

/-- Writing a hook slot leaves the current-hook pointer unchanged. -/
lemma setHook_current (b : Builder) (k : HookKind) (h : Hook) :
    (b.setHook k h).current_hook = b.current_hook := by
  cases k <;> rfl

/-- Selecting a hook kind always points the current hook at that kind. -/
lemma select_current (b : Builder) (k : HookKind) (d : String) :
    (b.select k d).current_hook = some k := by
  cases k <;> rfl

/-- Selecting a hook kind lazily creates an empty hook with the given
description when the slot was unset and reuses the stored hook otherwise. -/
lemma select_getHook (b : Builder) (k : HookKind) (d : String) :
    (b.select k d).getHook k = some ((b.getHook k).getD ⟨[], some d⟩) := by
  cases k with
  | install =>
    cases hi : b.install_hook <;>
      simp [Builder.select, Builder.install, Builder.getHook, hi]
  | uninstall =>
    cases hi : b.uninstall_hook <;>
      simp [Builder.select, Builder.uninstall, Builder.getHook, hi]
  | update =>
    cases hi : b.update_hook <;>
      simp [Builder.select, Builder.update, Builder.getHook, hi]
  | is_updated =>
    cases hi : b.is_updated_hook <;>
      simp [Builder.select, Builder.is_updated, Builder.getHook, hi]

/-- With a current hook selected and populated, appending a step extends that
hook by exactly that step at the end. -/
lemma appendStep_eq (b : Builder) (k : HookKind) (h : Hook) (s : Step)
    (h1 : b.current_hook = some k) (h2 : b.getHook k = some h) :
    b.appendStep s = .ok (b.setHook k ⟨h.steps ++ [s], h.description⟩) := by
  simp [Builder.appendStep, h1, h2]

/-- C1: whenever invoking a Hook with N appended steps returns (rather than
propagating an uncaught process-launch error), it returns exactly N results,
the result at position i being exactly what running the step appended at
position i alone produces against the same oracle, so the order matches the
append order and no step is skipped because of the status an earlier step
returned. -/
theorem hook_call_runs_every_step (h : Hook) (w : World) (rs : List StepExecutionResult)
    (h' : Hook) (hc : h.call w = .ok (rs, h')) :
    rs.length = h.steps.length ∧ h'.steps.length = h.steps.length ∧
    h'.description = h.description ∧
    ∀ (i : Nat) (hi : i < h.steps.length) (hr : i < rs.length) (hs : i < h'.steps.length),
      runStep (h.steps.get ⟨i, hi⟩) w = .ok (rs.get ⟨i, hr⟩, h'.steps.get ⟨i, hs⟩) := by
  unfold Hook.call at hc
  cases h2 : callSteps h.steps w with
  | error e => rw [h2] at hc; exact absurd hc (by simp [Except.map])
  | ok v =>
    obtain ⟨rs0, ss0⟩ := v
    rw [h2] at hc
    simp only [Except.map, Except.ok.injEq, Prod.mk.injEq] at hc
    obtain ⟨hrs, hh⟩ := hc
    subst hrs
    obtain ⟨l1, l2, lp⟩ := callSteps_length_get h.steps w rs0 ss0 h2
    subst hh
    exact ⟨l1, l2, rfl, lp⟩

/-- C1 witness: a two-step hook whose first step fails with the internal
failure status still produces two results. -/
theorem hook_call_runs_every_step_witness :
    ([⟨EX_SOFTWARE, "", "gone"⟩, ⟨EX_OK, "downloaded to p", ""⟩] :
      List StepExecutionResult).length =
      (Hook.mk [.rm "a", .download "u" "p"] none).steps.length :=
  (hook_call_runs_every_step ⟨[.rm "a", .download "u" "p"], none⟩ wA
    [⟨EX_SOFTWARE, "", "gone"⟩, ⟨EX_OK, "downloaded to p", ""⟩]
    ⟨[.rm "a", .download "u" "p"], none⟩ rfl).1

/-- C2: the download, extract and remove steps never raise past the step
boundary: for every oracle they return ok. When the underlying collaborator
fails with description e, the result has the distinguished internal-failure
status EX_SOFTWARE, empty stdout and e as stderr; on success the status is
EX_OK and stdout is the documented message naming the paths. -/
theorem safe_step_result_contract (w : World) (url path src dest rp : String)
    (o a k : Bool) :
    (∃ x, runStep (.download url path) w = .ok x) ∧
    (∃ x, runStep (.extract src dest o a k) w = .ok x) ∧
    (∃ x, runStep (.rm rp) w = .ok x) ∧
    (w.downloadResult url path = .ok () →
      runStep (.download url path) w =
        .ok (⟨EX_OK, "downloaded to " ++ path, ""⟩, .download url path)) ∧
    (∀ e, w.downloadResult url path = .error e →
      runStep (.download url path) w = .ok (⟨EX_SOFTWARE, "", e⟩, .download url path)) ∧
    (w.extractResult src dest o a k = .ok () →
      runStep (.extract src dest o a k) w =
        .ok (⟨EX_OK, "extracted " ++ src ++ " to " ++ dest, ""⟩, .extract src dest o a k)) ∧
    (∀ e, w.extractResult src dest o a k = .error e →
      runStep (.extract src dest o a k) w =
        .ok (⟨EX_SOFTWARE, "", e⟩, .extract src dest o a k)) ∧
    (w.rmResult rp = .ok () →
      runStep (.rm rp) w = .ok (⟨EX_OK, "removed " ++ rp, ""⟩, .rm rp)) ∧
    (∀ e, w.rmResult rp = .error e →
      runStep (.rm rp) w = .ok (⟨EX_SOFTWARE, "", e⟩, .rm rp)) := by
  refine ⟨?_, ?_, ?_, ?_, ?_, ?_, ?_, ?_, ?_⟩
  · cases hd : w.downloadResult url path with
    | ok u => exact ⟨(⟨EX_OK, "downloaded to " ++ path, ""⟩, .download url path),
        by simp [runStep, hd]⟩
    | error e => exact ⟨(⟨EX_SOFTWARE, "", e⟩, .download url path), by simp [runStep, hd]⟩
  · cases hd : w.extractResult src dest o a k with
    | ok u => exact ⟨(⟨EX_OK, "extracted " ++ src ++ " to " ++ dest, ""⟩, .extract src dest o a k),
        by simp [runStep, hd]⟩
    | error e => exact ⟨(⟨EX_SOFTWARE, "", e⟩, .extract src dest o a k), by simp [runStep, hd]⟩
  · cases hd : w.rmResult rp with
    | ok u => exact ⟨(⟨EX_OK, "removed " ++ rp, ""⟩, .rm rp), by simp [runStep, hd]⟩
    | error e => exact ⟨(⟨EX_SOFTWARE, "", e⟩, .rm rp), by simp [runStep, hd]⟩
  · intro hd; simp [runStep, hd]
  · intro e hd; simp [runStep, hd]
  · intro hd; simp [runStep, hd]
  · intro e hd; simp [runStep, hd]
  · intro hd; simp [runStep, hd]
  · intro e hd; simp [runStep, hd]

/-- C2 witness: a successful download yields status EX_OK and the documented
message; a failed extraction and a failed removal yield status EX_SOFTWARE,
empty stdout and the error description as stderr, without raising. -/
theorem safe_step_result_contract_witness :
    runStep (.download "u" "p") wA =
      .ok (⟨EX_OK, "downloaded to p", ""⟩, .download "u" "p") ∧
    runStep (.extract "s" "d" false false false) wA =
      .ok (⟨EX_SOFTWARE, "", "boom"⟩, .extract "s" "d" false false false) ∧
    runStep (.rm "a") wA = .ok (⟨EX_SOFTWARE, "", "gone"⟩, .rm "a") :=
  ⟨(safe_step_result_contract wA "u" "p" "s" "d" "a" false false false).2.2.2.1 rfl,
   (safe_step_result_contract wA "u" "p" "s" "d" "a" false false false).2.2.2.2.2.2.1 "boom" rfl,
   (safe_step_result_contract wA "u" "p" "s" "d" "a" false false false).2.2.2.2.2.2.2.2 "gone" rfl⟩

/-- C3: when the external process launches and exits with code K, the cmd step
returns a result whose status is exactly K with the captured output streams,
never converted to the internal-failure code; when the launch itself fails,
the step does not yield a result and the error propagates out of the whole
Hook invocation (all steps before the cmd step having returned results). -/
theorem cmd_step_exit_and_launch (w : World) (args : List String) (cwd : String) :
    (∀ p : ProcOutcome, w.runProcess args (if cwd = "" then w.getcwd else cwd) = .ok p →
      runStep (.cmd args cwd) w =
        .ok (⟨p.returncode, p.stdout, p.stderr⟩,
             .cmd args (if cwd = "" then w.getcwd else cwd))) ∧
    (∀ e, w.runProcess args (if cwd = "" then w.getcwd else cwd) = .error e →
      runStep (.cmd args cwd) w = .error e ∧
      ∀ (d : Option String) (pre rest : List Step),
        (∀ s ∈ pre, ∃ x, runStep s w = .ok x) →
        Hook.call ⟨pre ++ Step.cmd args cwd :: rest, d⟩ w = .error e) := by
  constructor
  · intro p hp; simp [runStep, hp]
  · intro e he
    have h0 : runStep (.cmd args cwd) w = .error e := by simp [runStep, he]
    refine ⟨h0, ?_⟩
    intro d pre rest hpre
    unfold Hook.call
    rw [callSteps_error_of_step_error pre _ rest w e hpre h0]
    rfl

/-- C3 witness: a process exiting with code 7 yields a result with status
exactly 7, and a launch failure propagates out of the Hook invocation as an
error instead of a result list. -/
theorem cmd_step_exit_and_launch_witness :
    runStep (.cmd ["x"] "/w") wB = .ok (⟨7, "out", "err"⟩, .cmd ["x"] "/w") ∧
    Hook.call ⟨[.cmd ["x"] ""], none⟩ wA = .error "launch failed" :=
  ⟨(cmd_step_exit_and_launch wB ["x"] "/w").1 ⟨7, "out", "err"⟩ rfl,
   ((cmd_step_exit_and_launch wA ["x"] "").2 "launch failed" rfl).2 none [] []
     (fun s hs => absurd hs (List.not_mem_nil s))⟩

/-- C4: finalization fails with the HooksMissing error exactly when the
install hook or the uninstall hook is unset and the debug override is not
truthy, and succeeds whenever the override is truthy, regardless of which
hooks are unset. The model finalization is a pure function of the builder,
so a failed finalization leaves the builder available unchanged for
correction and retry. -/
theorem to_recipe_validation (b : Builder) (env : Option String) :
    (b.to_recipe env = .error (.hooksMissing hooksMissingMessage) ↔
      ((b.install_hook = none ∨ b.uninstall_hook = none) ∧ envTruthy env = false)) ∧
    ((∃ r, b.to_recipe env = .ok r) ↔
      (envTruthy env = true ∨ (b.install_hook ≠ none ∧ b.uninstall_hook ≠ none))) := by
  rcases hi : b.install_hook with _ | hI <;>
    rcases hu : b.uninstall_hook with _ | hU <;>
      cases he : envTruthy env <;>
        simp [Builder.to_recipe, hi, hu, he]

/-- C4 witness: a builder with no hooks fails finalization with HooksMissing
when the override is absent and succeeds when the override is truthy. -/
theorem to_recipe_validation_witness :
    bC4.to_recipe none = .error (.hooksMissing hooksMissingMessage) ∧
    ∃ r, bC4.to_recipe (some "1") = .ok r :=
  ⟨(to_recipe_validation bC4 none).1.mpr ⟨Or.inl rfl, rfl⟩,
   (to_recipe_validation bC4 (some "1")).2.mpr (Or.inl rfl)⟩

/-- C5: on a builder with no hook selected, each of the four step constructors
fails with a CurrentHooksNotSet error whose message names the builder. The
failing constructor returns only the error, never a builder, so no step is
appended to any hook slot and the original builder is all that remains. -/
theorem step_ctor_requires_current_hook (b : Builder) (hb : b.current_hook = none)
    (url path src dest rp cwd : String) (o a k : Bool) (args : List String) :
    b.download url path = .error (.currentHooksNotSet ("No hook set for " ++ b.name)) ∧
    b.extract src dest o a k =
      .error (.currentHooksNotSet ("No hook set for " ++ b.name)) ∧
    b.rm rp = .error (.currentHooksNotSet ("No hook set for " ++ b.name)) ∧
    b.cmd args cwd = .error (.currentHooksNotSet ("No hook set for " ++ b.name)) := by
  simp [Builder.download, Builder.extract, Builder.rm, Builder.cmd, Builder.appendStep, hb]

/-- C5 witness: a fresh builder named x rejects a download step with the
error message naming x. -/
theorem step_ctor_requires_current_hook_witness :
    (recipe "x" "").download "u" "p" = .error (.currentHooksNotSet "No hook set for x") :=
  (step_ctor_requires_current_hook (recipe "x" "") rfl "u" "p" "s" "d" "r" ""
    false false false []).1

/-- C6: the is-updated query returns true exactly when every result produced
by invoking the is-updated hook has return code 0, and false exactly when
some result in the sequence has a non-zero return code. -/
theorem is_updated_true_iff_all_success (r : Recipe) (w : World) (h : Hook)
    (rs : List StepExecutionResult) (h' : Hook)
    (hh : r.is_updated_hook = some h) (hc : h.call w = .ok (rs, h')) :
    (r.is_updated w = .ok true ↔ ∀ x ∈ rs, x.return_code = 0) ∧
    (r.is_updated w = .ok false ↔ ∃ x ∈ rs, x.return_code ≠ 0) := by
  unfold Recipe.is_updated
  rw [hh]
  simp only [hc, Except.map, Except.ok.injEq]
  constructor
  · rw [List.all_eq_true]
    constructor
    · intro hall x hx; simpa using hall x hx
    · intro hall x hx; simpa using hall x hx
  · rw [Bool.eq_false_iff, Ne, List.all_eq_true]
    push_neg
    constructor
    · rintro ⟨x, hx, hne⟩; exact ⟨x, hx, by simpa using hne⟩
    · rintro ⟨x, hx, hne⟩; exact ⟨x, hx, by simpa using hne⟩

/-- C6 witness: an is-updated hook producing one result with the non-zero
status EX_SOFTWARE makes the query return false. -/
theorem is_updated_true_iff_all_success_witness :
    rC6.is_updated wA = .ok false :=
  (is_updated_true_iff_all_success rC6 wA ⟨[.rm "a"], none⟩ [⟨EX_SOFTWARE, "", "gone"⟩]
    ⟨[.rm "a"], none⟩ rfl rfl).2.mpr ⟨⟨EX_SOFTWARE, "", "gone"⟩, by simp, by decide⟩

/-- C7: re-selecting a hook kind whose hook already exists reuses that hook
rather than replacing it: the stored steps are preserved, the current-hook
pointer is set to that kind, and a step appended in the first selection
window followed by a step appended after re-selection extend the same hook
into one continuous ordered sequence. -/
theorem same_kind_selection_accumulates (b : Builder) (k : HookKind) (d d2 : String)
    (h : Hook) (s s2 : Step) (hk : b.getHook k = some h) :
    (b.select k d).getHook k = some h ∧
    (b.select k d).current_hook = some k ∧
    (b.select k d).appendStep s =
      .ok ((b.select k d).setHook k ⟨h.steps ++ [s], h.description⟩) ∧
    (((b.select k d).setHook k ⟨h.steps ++ [s], h.description⟩).select k d2).getHook k =
      ((b.select k d).setHook k ⟨h.steps ++ [s], h.description⟩).getHook k ∧
    (((b.select k d).setHook k ⟨h.steps ++ [s], h.description⟩).select k d2).current_hook =
      some k ∧
    (((b.select k d).setHook k ⟨h.steps ++ [s], h.description⟩).select k d2).appendStep s2 =
      .ok ((((b.select k d).setHook k ⟨h.steps ++ [s], h.description⟩).select k d2).setHook k
        ⟨h.steps ++ [s, s2], h.description⟩) := by
  have hsel1 : (b.select k d).getHook k = some h := by
    rw [select_getHook, hk]; rfl
  have hset : ((b.select k d).setHook k ⟨h.steps ++ [s], h.description⟩).getHook k =
      some ⟨h.steps ++ [s], h.description⟩ := setHook_getHook _ k _
  have hsel2 : (((b.select k d).setHook k ⟨h.steps ++ [s], h.description⟩).select k d2).getHook k =
      some ⟨h.steps ++ [s], h.description⟩ := by
    rw [select_getHook, hset]; rfl
  refine ⟨hsel1, select_current b k d, ?_, ?_, select_current _ k d2, ?_⟩
  · exact appendStep_eq _ k h s (select_current b k d) hsel1
  · rw [hsel2, hset]
  · have := appendStep_eq _ k ⟨h.steps ++ [s], h.description⟩ s2
      (select_current _ k d2) hsel2
    rw [this]
    simp [List.append_assoc]

/-- C7 witness: after selecting install, appending one download, re-selecting
install and appending a second download, the install hook holds the two
steps in one continuous ordered sequence. -/
theorem same_kind_selection_accumulates_witness :
    (bW3.select HookKind.install "d3").appendStep (Step.download "u2" "p2") = .ok bW4 :=
  (same_kind_selection_accumulates bW HookKind.install "d2" "d3" ⟨[], some "d1"⟩
    (Step.download "u1" "p1") (Step.download "u2" "p2") rfl).2.2.2.2.2

/-- C8 counterexample: finalizing a builder whose description is desc yields
a recipe whose description is the empty default, not the description of the
builder, refuting the claim that the recipe carries the description of the
builder. -/
theorem to_recipe_drops_description_cex :
    bC8.to_recipe none = .ok rC8 ∧ bC8.description = "desc" ∧ rC8.description = "" ∧
    rC8.description ≠ bC8.description :=
  ⟨rfl, rfl, rfl, by decide⟩

/-- C8 amended: on successful finalization the recipe carries the name of the
builder and exactly its four hook fields (so the update and is-updated hooks
are absent in the recipe exactly when absent in the builder), but its
description is always the empty Recipe default, the source not passing the
description of the builder through. -/
theorem to_recipe_fields_amended (b : Builder) (env : Option String) (r : Recipe)
    (h : b.to_recipe env = .ok r) :
    r.name = b.name ∧ r.description = "" ∧ r.install_hook = b.install_hook ∧
    r.uninstall_hook = b.uninstall_hook ∧ r.update_hook = b.update_hook ∧
    r.is_updated_hook = b.is_updated_hook := by
  unfold Builder.to_recipe at h
  split at h
  · exact absurd h (by simp)
  · simp only [Except.ok.injEq] at h
    subst h
    exact ⟨rfl, rfl, rfl, rfl, rfl, rfl⟩

/-- C8 amended witness: the concrete finalization of bC8 shares its name and
hook fields and has the empty default description. -/
theorem to_recipe_fields_amended_witness :
    rC8.name = bC8.name ∧ rC8.description = "" ∧ rC8.install_hook = bC8.install_hook ∧
    rC8.uninstall_hook = bC8.uninstall_hook ∧ rC8.update_hook = bC8.update_hook ∧
    rC8.is_updated_hook = bC8.is_updated_hook :=
  to_recipe_fields_amended bC8 none rC8 rfl

/-- C9: a cmd step whose captured cwd is empty resolves it to the current
working directory of the oracle on its first invocation and overwrites the
captured variable with the resolved directory, so a later invocation of the
resulting step runs the process in that first directory even against an
oracle whose current working directory differs. -/
theorem cmd_cwd_resolved_once (w1 w2 : World) (args : List String)
    (h0 : w1.getcwd ≠ "") (p q : ProcOutcome)
    (h1 : w1.runProcess args w1.getcwd = .ok p)
    (h2 : w2.runProcess args w1.getcwd = .ok q) :
    runStep (.cmd args "") w1 =
      .ok (⟨p.returncode, p.stdout, p.stderr⟩, .cmd args w1.getcwd) ∧
    runStep (.cmd args w1.getcwd) w2 =
      .ok (⟨q.returncode, q.stdout, q.stderr⟩, .cmd args w1.getcwd) := by
  constructor
  · simp [runStep, h1]
  · simp [runStep, h0, h2]

/-- C9 witness: with processes echoing their working directory, the first
invocation in a world whose directory is /a runs in /a, and the second
invocation of the updated step in a world whose directory is /b still runs
in /a. -/
theorem cmd_cwd_resolved_once_witness :
    runStep (.cmd ["x"] "") wC9a = .ok (⟨0, "/a", ""⟩, .cmd ["x"] "/a") ∧
    runStep (.cmd ["x"] "/a") wC9b = .ok (⟨0, "/a", ""⟩, .cmd ["x"] "/a") :=
  cmd_cwd_resolved_once wC9a wC9b ["x"] (by decide) ⟨0, "/a", ""⟩ ⟨0, "/a", ""⟩ rfl rfl

/-- C10: when the is-updated hook is present with zero steps, invoking it
yields the empty result list and the is-updated query returns true
vacuously. -/
theorem is_updated_vacuous_true (r : Recipe) (w : World) (d : Option String)
    (hh : r.is_updated_hook = some ⟨[], d⟩) :
    r.is_updated w = .ok true := by
  unfold Recipe.is_updated
  rw [hh]
  rfl

/-- C10 witness: a concrete recipe with an empty is-updated hook reports
true. -/
theorem is_updated_vacuous_true_witness : rC10.is_updated wA = .ok true :=
  is_updated_vacuous_true rC10 wA none rfl

end Devm
